import Mathlib

/-!
Verification development for the enclave networking fabric
(data-plane egress broker, crypto API facade, E3 client, configuration).

The Rust sources are shallowly embedded: pure control flow is translated
directly; calls into external collaborators (the tls_parser crate's
message/extension sub-parsers, the DNS cache, the random number generator,
socket dials, the splicer) are passed in as oracle inputs, so that every
theorem quantifies over all behaviours of the collaborators.
-/

namespace Enclaves

/-! ## TLS data model (mirrors the tls_parser crate's types as used
by data-plane/src/dns/egressproxy.rs) -/

/-- Contents of a parsed ClientHello as consumed by `get_hostname`:
only the raw extensions block (`client_hello.ext : Option<&[u8]>`) is read. -/
structure TlsClientHelloContents where
  ext : Option (List Nat)
deriving DecidableEq, Repr

/-- The handshake message alternatives distinguished by `get_hostname`:
a ClientHello, or any other handshake message. -/
inductive TlsMessageHandshake where
  | clientHello (ch : TlsClientHelloContents)
  | otherHandshake
deriving DecidableEq, Repr

/-- The message alternatives distinguished by `get_hostname`:
a handshake message, or any other TLS message. -/
inductive TlsMessage where
  | handshake (h : TlsMessageHandshake)
  | otherMessage
deriving DecidableEq, Repr

/-- TLS record header: content type, version, record length (5 bytes). -/
structure TlsRecordHeader where
  contentType : Nat
  version : Nat
  len : Nat
deriving DecidableEq, Repr

/-- Result of `parse_tls_plaintext`: the record header and the list of
messages parsed from the record payload. -/
structure TlsPlaintext where
  hdr : TlsRecordHeader
  msg : List TlsMessage
deriving DecidableEq, Repr

/-- A parsed TLS extension as consumed by `get_hostname`: an SNI extension
carrying a list of (name type, host name) pairs, or any other extension.
The second component of each SNI item models the result of
`std::str::from_utf8` on the raw name bytes: `some s` when the bytes are
valid UTF-8 decoding to `s`, `none` when invalid. -/
inductive TlsExtension where
  | SNI (items : List (Nat × Option String))
  | otherExtension
deriving DecidableEq, Repr

/-- Outcome of a streaming nom parse: `done` on success, `parseError`
for a recoverable/unrecoverable parse error (nom's `Error`/`Failure`),
and `incomplete` when the parser needs more input (nom's `Incomplete`).
The distinction matters because `Finish::finish()` — used at both parse
sites of `get_hostname` — converts errors but PANICS on `Incomplete`. -/
inductive NomResult (α : Type) where
  | done (val : α)
  | parseError
  | incomplete
deriving DecidableEq, Repr

/-- Oracle type for the tls_parser crate's single-message sub-parse
(external collaborator): consumes a prefix of the input, returning the
message and the remaining input, or fails. In the crate the message
parses inside a record are wrapped in nom's `complete`, so their
failures are clean errors, never `Incomplete`. -/
def MsgParseFn : Type := List Nat → Option (TlsMessage × List Nat)

/-- Oracle type for the tls_parser crate's `parse_tls_extensions`
(external collaborator): returns the parsed extensions and remaining
input, a clean parse error, or an `Incomplete` demand for more input. -/
def ExtParseFn : Type := List Nat → NomResult (List TlsExtension × List Nat)

/-- Fuel-bounded model of the nom `many0` loop over the message
sub-parse: keeps parsing messages until the sub-parse fails or fuel
(an upper bound on the number of iterations) runs out. -/
def many0_msgs (p : MsgParseFn) : Nat → List Nat → List TlsMessage
  | 0, _ => []
  | fuel + 1, i =>
    match p i with
    | none => []
    | some (m, r) => m :: many0_msgs p fuel r

/-- Model of the nom `many1` combinator used by the tls_parser crate for
the record payload: the first message must parse, then `many0` continues.
On success the resulting message list is therefore non-empty. -/
def many1_msgs (p : MsgParseFn) (i : List Nat) : Option (List TlsMessage) :=
  match p i with
  | none => none
  | some (m, r) => some (m :: many0_msgs p (r.length + 1) r)

/-- Model of `parse_tls_record_header` (external tls_parser crate):
reads the 5-byte record header (type, 2-byte version, 2-byte length).
The crate's header parse is streaming, so a buffer shorter than 5 bytes
yields `Incomplete`, not a clean error. -/
def parse_tls_record_header (i : List Nat) :
    NomResult (TlsRecordHeader × List Nat) :=
  match i with
  | t :: v1 :: v2 :: l1 :: l2 :: rest =>
      .done (⟨t, v1 * 256 + v2, l1 * 256 + l2⟩, rest)
  | _ => .incomplete

/-- Model of `parse_tls_plaintext` (external tls_parser crate),
structured as the crate structures it: parse the record header
(streaming: `Incomplete` on fewer than 5 bytes), take the record
payload of the announced length (streaming: `Incomplete` when the input
holds fewer bytes than announced), and parse the payload with `many1`
of the `complete`-wrapped message sub-parse `p`, whose failures are
clean parse errors. -/
def parse_tls_plaintext (p : MsgParseFn) (i : List Nat) :
    NomResult (TlsPlaintext × List Nat) :=
  match parse_tls_record_header i with
  | .done (hdr, rest) =>
    if hdr.len ≤ rest.length then
      match many1_msgs p (rest.take hdr.len) with
      | none => .parseError
      | some msgs => .done (⟨hdr, msgs⟩, rest.drop hdr.len)
    else .incomplete
  | .parseError => .parseError
  | .incomplete => .incomplete

/-! ## Egress broker (data-plane/src/dns/egressproxy.rs) -/

/-- The DNSError variants exercised by `handle_egress_connection`
(data-plane/src/dns/error.rs is consulted only through its uses here):
TLS parse failures, absent hostname, cache miss, and I/O failures
(read / dial / write / splice) which all propagate through `?`. -/
inductive DNSError where
  | tlsParseError (msg : String)
  | noHostnameFound
  | missingIP (msg : String)
  | ioError
deriving DecidableEq, Repr

/-- Placeholder for the formatted record-level parse error message
(the text comes from the external parse error's Debug formatting). -/
def plaintext_err_msg : String := "tls plaintext parse error"

/-- Placeholder for the formatted extensions parse error message. -/
def ext_err_msg : String := "tls extensions parse error"

/-- The `MissingIP` message built in `handle_egress_connection`
(apostrophe of the source text elided). -/
def missing_ip_msg (hostname : String) : String :=
  "Could not find cached ip for " ++ hostname

/-- Panic-tracking wrapper: `panic` models a Rust panic (an out-of-bounds
index), `ok` a normal return. -/
inductive PanicOr (α : Type) where
  | panic
  | ok (val : α)
deriving DecidableEq, Repr

/-- The SNI scan of `get_hostname`, lines 55-68: `destination` starts as
the empty string and is overwritten by every SNI host name that decodes
as valid UTF-8, so the last valid one wins. -/
def sni_destination (exts : List TlsExtension) : String :=
  exts.foldl
    (fun dest ext =>
      match ext with
      | TlsExtension.SNI items =>
          items.foldl
            (fun d item =>
              match item.2 with
              | some hostname => hostname
              | none => d)
            dest
      | TlsExtension.otherExtension => dest)
    ""

/-- Embedding of `EgressProxy::get_hostname` (egressproxy.rs lines 41-70).
`p` and `pe` are the external tls_parser sub-parsers. Both parse sites
call `.finish()` (lines 42-43 and 56-58), which maps clean parse errors
to `TlsParseError` but PANICS when the streaming parser returns
`Incomplete` — modelled by the `panic` outcomes on `.incomplete`. The
unguarded index `parsed_request.msg[0]` is modelled by `msg.get? 0`,
returning `panic` when the list is empty. Returns `ok (.ok none)` when
the first message is not a ClientHello or the ClientHello has no
extensions block, and otherwise the scanned SNI destination (possibly
the empty string). -/
def get_hostname (p : MsgParseFn) (pe : ExtParseFn) (data : List Nat) :
    PanicOr (Except DNSError (Option String)) :=
  match parse_tls_plaintext p data with
  | .done (parsed_request, _) =>
    match parsed_request.msg.get? 0 with
    | none => .panic
    | some first_msg =>
      match first_msg with
      | TlsMessage.handshake (TlsMessageHandshake.clientHello client_hello) =>
        match client_hello.ext with
        | none => .ok (.ok none)
        | some raw_extensions =>
          match pe raw_extensions with
          | .done (extensions, _) =>
              .ok (.ok (some (sni_destination extensions)))
          | .parseError => .ok (.error (.tlsParseError ext_err_msg))
          | .incomplete => .panic
      | _ => .ok (.ok none)
  | .parseError => .ok (.error (.tlsParseError plaintext_err_msg))
  | .incomplete => .panic

/-- The `ExternalRequest` frame (shared/src/rpc/request.rs, used at
egressproxy.rs lines 110-114): chosen destination IP and the captured
customer bytes. -/
structure ExternalRequest where
  ip : String
  data : List Nat
deriving DecidableEq, Repr

/-- A write event on the channel to the host egress forwarder: either the
one framed `ExternalRequest` (its `to_bytes` serialization) or raw bytes
moved by the splicer. -/
inductive WriteEvent where
  | frame (req : ExternalRequest)
  | raw (bytes : List Nat)
deriving DecidableEq, Repr

/-- Model of `rand::seq::SliceRandom::choose` (external rand crate):
`none` on the empty slice, otherwise an element selected by the random
draw `rng` (reduced modulo the length). -/
def choose (rng : Nat) (l : List String) : Option String :=
  l.get? (rng % l.length)

/-- Oracle bundle for a single egress connection: the two external
tls_parser sub-parsers, the DNS cache snapshot (`Cache::get_ip`, modelled
from the spec as hostname → optional list of IP strings), the random
draw, and the success/failure of the dial to the host forwarder, of the
frame write, and of the splicer, together with the raw chunks the splicer
moves toward the forwarder. -/
structure EgressOracles where
  p : MsgParseFn
  pe : ExtParseFn
  cache : String → Option (List String)
  rng : Nat
  dialOk : Bool
  writeOk : Bool
  spliceChunks : List (List Nat)
  spliceOk : Bool

/-- Embedding of `EgressProxy::handle_egress_connection`
(egressproxy.rs lines 86-126) after the initial read: `customer_data` is
the buffer read from the customer stream. Returns the connection outcome
together with the ordered trace of writes made to the host-forwarder
channel. Dial, write and splice failures surface as `ioError` through
`?`; a failed dial or a failed frame write produces no forwarder trace. -/
def handle_egress_connection (o : EgressOracles) (customer_data : List Nat) :
    PanicOr (Except DNSError Unit × List WriteEvent) :=
  match get_hostname o.p o.pe customer_data with
  | .panic => .panic
  | .ok (.error e) => .ok (.error e, [])
  | .ok (.ok none) => .ok (.error .noHostnameFound, [])
  | .ok (.ok (some hostname)) =>
    match (o.cache hostname).bind (fun ips => choose o.rng ips) with
    | some remote_ip =>
      if o.dialOk then
        if o.writeOk then
          if o.spliceOk then
            .ok (.ok (), WriteEvent.frame ⟨remote_ip, customer_data⟩ ::
              o.spliceChunks.map WriteEvent.raw)
          else
            .ok (.error .ioError, WriteEvent.frame ⟨remote_ip, customer_data⟩ ::
              o.spliceChunks.map WriteEvent.raw)
        else .ok (.error .ioError, [])
      else .ok (.error .ioError, [])
    | none => .ok (.error (.missingIP (missing_ip_msg hostname)), [])

/-! ## JSON values (serde_json::Value, external collaborator) -/

/-- Abstract JSON value, mirroring serde_json::Value as far as the
claims need (numbers kept as integers, opaque to this system). -/
inductive Json where
  | null
  | bool (b : Bool)
  | num (n : Int)
  | str (s : String)
  | arr (xs : List Json)
  | obj (fields : List (String × Json))

/-! ## Tenant context and E3 payload (data-plane/src/e3client/mod.rs) -/

/-- The tenant context record
(spec §3: team_uuid, app_uuid, cage_uuid, cage_name). -/
structure CageContext where
  team_uuid : String
  app_uuid : String
  cage_uuid : String
  cage_name : String
deriving DecidableEq, Repr

/-- Modelled from the spec: `CageContext::new` (its defining module is not
under src/) resolves the tenant context from the process environment,
"populated once from environment"; it fails with a `VarError` when a
required variable is absent. The resolution outcome is the oracle
`ctxEnv`: `some ctx` when resolvable, `none` when not. -/
def CageContext.new (ctxEnv : Option CageContext) : Option CageContext :=
  ctxEnv

/-- `E3Payload` (e3client/mod.rs lines 180-183): optional JSON data plus
the tenant context. -/
structure E3Payload where
  data : Option Json
  context : CageContext

/-- The `From<(&Value, &CageContext)>` conversion for `E3Payload`
(e3client/mod.rs lines 185-192): wraps the value as `Some`. -/
def E3Payload.from_value (val : Json) (context : CageContext) : E3Payload :=
  ⟨some val, context⟩

/-- The `From<&CageContext>` conversion for `E3Payload`
(e3client/mod.rs lines 194-201): no data. -/
def E3Payload.from_context (context : CageContext) : E3Payload :=
  ⟨none, context⟩

/-- The JSON key for the data field. -/
def data_key : String := "data"

/-- The JSON key for the team identifier. -/
def team_uuid_key : String := "team_uuid"

/-- The JSON key for the app identifier. -/
def app_uuid_key : String := "app_uuid"

/-- The `TryInto<hyper::Body>` serialization of `E3Payload`
(e3client/mod.rs lines 203-213): the JSON object with fields data (the
payload or null), team_uuid and app_uuid taken from the context. The
byte-level serde_json encoding is elided; the body is kept as the JSON
value it serializes. -/
def E3Payload.try_into_body (p : E3Payload) : Json :=
  Json.obj
    [(data_key, p.data.getD Json.null),
     (team_uuid_key, Json.str p.context.team_uuid),
     (app_uuid_key, Json.str p.context.app_uuid)]

/-! ## E3 client (data-plane/src/e3client/mod.rs) -/

/-- The E3 client error variants exercised by `send` and `authenticate`
(e3client/error.rs plus `FailedRequest`): transport/hyper/serde failures
collapse to `ioError`; `failedRequest` carries the HTTP status. -/
inductive E3Err where
  | ioError
  | failedRequest (status : Nat)
deriving DecidableEq, Repr

/-- `StatusCode::is_success` (external http crate): 2xx statuses. -/
def is_success (status : Nat) : Bool :=
  200 ≤ status && status < 300

/-- Embedding of `E3Client::send` (e3client/mod.rs lines 104-135) with
the network exchange as oracle: `exchange = none` models a dial / TLS /
hyper failure propagating through `?`, `exchange = some status` a
completed HTTP exchange with that response status. A non-2xx status
returns `Err(FailedRequest(status))` (lines 130-132); a 2xx status
returns the response. Request construction (uri, api-key header, POST)
does not affect the returned value and is elided. -/
def E3Client.send (exchange : Option Nat) : Except E3Err Nat :=
  match exchange with
  | none => .error .ioError
  | some status =>
    if is_success status then .ok status
    else .error (.failedRequest status)

/-- Embedding of `E3Client::authenticate` (e3client/mod.rs lines
157-171): sends to /authenticate and maps the returned response status
through `is_success`; errors from `send` propagate through `?`. -/
def E3Client.authenticate (exchange : Option Nat) : Except E3Err Bool :=
  match E3Client.send exchange with
  | .error e => .error e
  | .ok status => .ok (is_success status)

/-! ## Crypto API facade (data-plane/src/crypto/api.rs) -/

/-- The CryptoApiError variants exercised by `build_request`, `encrypt`
and `decrypt` (api.rs lines 31-47): missing api-key header, unresolvable
tenant context, JSON deserialization failure, hyper body-read failure,
and E3 errors. -/
inductive CryptoApiError where
  | missingApiKey
  | missingCageContext
  | serdeError
  | hyperError
  | e3Error (e : E3Err)
deriving DecidableEq, Repr

/-- An incoming HTTP request as consumed by the facade: method, path, the
optional api-key header value, and the outcome of reading and
serde_json-parsing the body (`none` models a parse failure, the byte
reading and JSON decoding being external). -/
structure HttpRequest where
  method : String
  path : String
  apiKey : Option String
  bodyJson : Option Json

/-- Embedding of `CryptoApi::build_request` (api.rs lines 89-104), in
source order: resolve the tenant context first (line 92, failing with
`MissingCageContext`), then take and remove the api-key header (lines
93-96, failing with `MissingApiKey`), then read and parse the body
(lines 98-101, failing with `SerdeError`), and wrap the parsed value
with the context (line 102; `CryptoRequest` is not under src/ and is
modelled by `E3Payload`, whose `From<(&Value, &CageContext)>` instance
performs the same wrapping). -/
def CryptoApi.build_request (ctxEnv : Option CageContext) (req : HttpRequest) :
    Except CryptoApiError (String × E3Payload) :=
  match CageContext.new ctxEnv with
  | none => .error .missingCageContext
  | some cage_context =>
    match req.apiKey with
    | none => .error .missingApiKey
    | some api_key =>
      match req.bodyJson with
      | none => .error .serdeError
      | some body => .ok (api_key, E3Payload.from_value body cage_context)

/-- Embedding of `CryptoApi::encrypt` (api.rs lines 106-110) with the E3
client call as oracle `e3`. Returns the facade result (the serialized
`data` field of the E3 response) paired with the list of calls made to
the E3 client, so that non-contact is observable: `build_request`
failures return before any E3 call. -/
def CryptoApi.encrypt (ctxEnv : Option CageContext)
    (e3 : String → E3Payload → Except E3Err Json) (req : HttpRequest) :
    Except CryptoApiError Json × List (String × E3Payload) :=
  match CryptoApi.build_request ctxEnv req with
  | .error e => (.error e, [])
  | .ok (api_key, payload) =>
    match e3 api_key payload with
    | .error e => (.error (.e3Error e), [(api_key, payload)])
    | .ok response_data => (.ok response_data, [(api_key, payload)])

/-- Embedding of `CryptoApi::decrypt` (api.rs lines 112-116): identical
to `encrypt` up to the E3 endpoint, which lives inside the oracle. -/
def CryptoApi.decrypt (ctxEnv : Option CageContext)
    (e3 : String → E3Payload → Except E3Err Json) (req : HttpRequest) :
    Except CryptoApiError Json × List (String × E3Payload) :=
  match CryptoApi.build_request ctxEnv req with
  | .error e => (.error e, [])
  | .ok (api_key, payload) =>
    match e3 api_key payload with
    | .error e => (.error (.e3Error e), [(api_key, payload)])
    | .ok response_data => (.ok response_data, [(api_key, payload)])

/-- Embedding of the startup portion of `CryptoApi::listen`
(api.rs lines 56-68): it constructs the loopback address 127.0.0.1:9999
and serves; no step of it resolves the tenant context or reads the
environment, so it succeeds whatever the context-resolution outcome
`ctxEnv` would be. -/
def CryptoApi.listen_startup (_ctxEnv : Option CageContext) :
    Except CryptoApiError (Nat × Nat × Nat × Nat × Nat) :=
  .ok (127, 0, 0, 1, 9999)

/-- The POST method string. -/
def method_post : String := "POST"

/-- The GET method string. -/
def method_get : String := "GET"

/-- The /encrypt route. -/
def encrypt_path : String := "/encrypt"

/-- The /decrypt route. -/
def decrypt_path : String := "/decrypt"

/-- The /attestation-doc route. -/
def attestation_doc_path : String := "/attestation-doc"

/-- The fixed body returned by /attestation-doc outside an enclave
(api.rs line 131). -/
def no_attestation_msg : String := "No attestation available outside enclave"

/-- A response body as produced by the facade: empty (the default),
a serialized JSON value, or literal text. -/
inductive BodyData where
  | empty
  | jsonBody (j : Json)
  | textBody (s : String)

/-- An HTTP response from the facade: status and body. -/
structure HttpResponse where
  status : Nat
  body : BodyData

/-- Embedding of `CryptoApi::api` (api.rs lines 70-87), the route
dispatch: POST /encrypt and POST /decrypt run the corresponding handler
(status 200 on success, the handler's error otherwise, propagated out of
the service); GET /attestation-doc returns the fixed text body (the
non-enclave build of `get_attestation_doc`, api.rs lines 130-131);
everything else is 404 with an empty body. The second component is the
list of calls made to the E3 client. -/
def CryptoApi.api (ctxEnv : Option CageContext)
    (e3enc e3dec : String → E3Payload → Except E3Err Json) (req : HttpRequest) :
    Except CryptoApiError HttpResponse × List (String × E3Payload) :=
  if req.method = method_post ∧ req.path = encrypt_path then
    match CryptoApi.encrypt ctxEnv e3enc req with
    | (.error e, calls) => (.error e, calls)
    | (.ok j, calls) => (.ok ⟨200, .jsonBody j⟩, calls)
  else if req.method = method_post ∧ req.path = decrypt_path then
    match CryptoApi.decrypt ctxEnv e3dec req with
    | (.error e, calls) => (.error e, calls)
    | (.ok j, calls) => (.ok ⟨200, .jsonBody j⟩, calls)
  else if req.method = method_get ∧ req.path = attestation_doc_path then
    (.ok ⟨200, .textBody no_attestation_msg⟩, [])
  else
    (.ok ⟨404, .empty⟩, [])

/-! ## Configuration (data-plane/src/configuration.rs) -/

/-- Model of `u16::from_str` (Rust core): an optional leading plus sign,
then one or more ASCII digits, value at most 65535; anything else
(including the empty string) fails. -/
def parse_u16 (s : String) : Option Nat :=
  let cs :=
    match s.data with
    | c :: rest => if c = '+' then rest else s.data
    | [] => []
  if cs = [] then none
  else if cs.all Char.isDigit then
    let n := cs.foldl (fun acc c => acc * 10 + (c.toNat - 48)) 0
    if n ≤ 65535 then some n else none
  else none

/-- The default EGRESS_PORTS value. -/
def default_egress_ports : String := "443"

/-- Model of Rust `str::split(',')` over the character list: splitting
on every comma, with empty segments kept (the empty string yields one
empty segment, exactly as in Rust). -/
def split_commas (cs : List Char) : List (List Char) :=
  match cs with
  | [] => [[]]
  | c :: rest =>
    if c = ',' then [] :: split_commas rest
    else
      match split_commas rest with
      | s :: ss => (c :: s) :: ss
      | [] => [[c]]

/-- Model of Rust `str::split(',')` at the string level. -/
def split_on_comma (s : String) : List String :=
  (split_commas s.data).map List.asString

/-- The collect step of `get_egress_ports`: gathers the parsed ports,
any parse failure (a `none` item, i.e. the panic of the source's
`unwrap_or_else`) failing the whole collection. -/
def collect_ports : List (Option Nat) → Option (List Nat)
  | [] => some []
  | none :: _ => none
  | some v :: rest =>
    match collect_ports rest with
    | some vs => some (v :: vs)
    | none => none

/-- Embedding of `get_egress_ports` (configuration.rs lines 21-30):
`env` is the EGRESS_PORTS environment lookup outcome; absent defaults to
"443"; the string is split on commas and each item parsed as u16, any
parse failure panicking (modelled as `none` of the whole result, through
`collect_ports`). -/
def get_egress_ports (env : Option String) : Option (List Nat) :=
  let port_str := env.getD default_egress_ports
  collect_ports ((split_on_comma port_str).map parse_u16)

/-! ## Concrete fixtures for witnesses and counterexamples -/

/-- A concrete message sub-parse: consumes one byte and yields a
ClientHello whose raw extensions block is that byte. -/
def test_msg_parse : MsgParseFn := fun i =>
  match i with
  | b :: rest =>
      some (TlsMessage.handshake (TlsMessageHandshake.clientHello ⟨some [b]⟩), rest)
  | [] => none

/-- A concrete extensions parse yielding one non-SNI extension: the
ClientHello carries an extensions block but no SNI entry. -/
def test_ext_parse_nosni : ExtParseFn := fun i =>
  .done ([TlsExtension.otherExtension], i)

/-- A 3-byte buffer: shorter than the 5-byte TLS record header, so the
streaming record parse demands more input (`Incomplete`). -/
def truncated_data : List Nat := [22, 3, 1]

/-- A concrete 6-byte record: content type 22, version bytes 3 and 1,
announced length 1, one payload byte. -/
def test_data : List Nat := [22, 3, 1, 0, 1, 0]

/-- The plaintext record that `test_msg_parse` yields on `test_data`. -/
def test_plaintext : TlsPlaintext :=
  ⟨⟨22, 769, 1⟩,
   [TlsMessage.handshake (TlsMessageHandshake.clientHello ⟨some [0]⟩)]⟩

/-- A concrete IP literal. -/
def test_ip : String := "10.0.0.1"

/-- Oracles for the C3 counterexample: the ClientHello has an extensions
block but no SNI entry, and the DNS cache holds an entry for the empty
hostname; dial, write and splice all succeed, with no spliced chunks. -/
def test_oracles_nosni : EgressOracles :=
  ⟨test_msg_parse, test_ext_parse_nosni,
   fun h => if h = ("") then some [test_ip] else none,
   0, true, true, [], true⟩

/-- Oracles with an empty answer set cached for the empty hostname. -/
def test_oracles_empty_entry : EgressOracles :=
  ⟨test_msg_parse, test_ext_parse_nosni,
   fun h => if h = ("") then some [] else none,
   0, true, true, [], true⟩

/-- A concrete tenant context. -/
def test_ctx : CageContext :=
  ⟨("team-uuid-1"), ("app-uuid-1"), ("cage-uuid-1"), ("cage-1")⟩

/-- An E3-client stub that always succeeds with a null body. -/
def test_e3_stub : String → E3Payload → Except E3Err Json :=
  fun _ _ => .ok Json.null

/-- A POST /encrypt request carrying an api-key header and a JSON body. -/
def test_req : HttpRequest :=
  ⟨method_post, encrypt_path, some data_key, some (Json.num 5)⟩

/-- A POST /encrypt request with no api-key header. -/
def test_req_nokey : HttpRequest :=
  ⟨method_post, encrypt_path, none, some (Json.num 5)⟩

/-- The EGRESS_PORTS fixture of the spec's boundary test. -/
def ports_443_8443 : String := "443,8443"

/-- An EGRESS_PORTS value with an out-of-range item. -/
def ports_443_65536 : String := "443,65536"

/-- The out-of-range item of `ports_443_65536`. -/
def item_65536 : String := "65536"

/-! ## Helper lemmas -/

/-- An element returned by `List.get?` is a member of the list. -/
theorem get?_mem_helper {α : Type} :
    ∀ (l : List α) (n : Nat) (a : α), l.get? n = some a → a ∈ l := by
  intro l
  induction l with
  | nil => intro n a h; cases h
  | cons x xs ih =>
    intro n a h
    cases n with
    | zero =>
      simp only [List.get?] at h
      cases h
      exact List.mem_cons_self x xs
    | succ m =>
      simp only [List.get?] at h
      exact List.mem_cons_of_mem x (ih m a h)

/-- `choose` only returns elements of its list. -/
theorem choose_mem {rng : Nat} {l : List String} {ip : String}
    (h : choose rng l = some ip) : ip ∈ l :=
  get?_mem_helper l (rng % l.length) ip h

/-- `many1_msgs` never returns an empty message list. -/
theorem many1_msgs_ne_nil {p : MsgParseFn} {i : List Nat}
    {msgs : List TlsMessage} (h : many1_msgs p i = some msgs) : msgs ≠ [] := by
  unfold many1_msgs at h
  split at h
  · cases h
  · cases h
    simp

/-- A record accepted by `parse_tls_plaintext` carries at least one
message: the payload is parsed with `many1`. -/
theorem parse_tls_plaintext_msg_ne_nil {p : MsgParseFn} {i : List Nat}
    {tp : TlsPlaintext} {rest : List Nat}
    (h : parse_tls_plaintext p i = .done (tp, rest)) : tp.msg ≠ [] := by
  unfold parse_tls_plaintext at h
  split at h
  · split at h
    · split at h
      · cases h
      · rename_i hm
        cases h
        exact many1_msgs_ne_nil hm
    · cases h
  · cases h
  · cases h

/-- A frame event is never among the splicer's raw events. -/
theorem frame_not_in_raws {f : ExternalRequest} {chunks : List (List Nat)} :
    WriteEvent.frame f ∉ chunks.map WriteEvent.raw := by
  intro h
  rcases List.mem_map.mp h with ⟨b, _, hb⟩
  cases hb

/-- A failed item makes the whole port collection fail. -/
theorem collect_ports_none {l : List (Option Nat)} (h : none ∈ l) :
    collect_ports l = none := by
  induction l with
  | nil => cases h
  | cons port rest ih =>
    rcases List.mem_cons.mp h with h1 | h2
    · subst h1
      rfl
    · cases port with
      | none => rfl
      | some v =>
        unfold collect_ports
        rw [ih h2]

/-- The only errors `get_hostname` itself produces are TLS parse
errors: `NoHostnameFound` is raised by the caller, never here. -/
theorem get_hostname_error_is_parse {p : MsgParseFn} {pe : ExtParseFn}
    {data : List Nat} {e : DNSError}
    (h : get_hostname p pe data = .ok (.error e)) :
    e = .tlsParseError plaintext_err_msg ∨ e = .tlsParseError ext_err_msg := by
  unfold get_hostname at h
  split at h
  · split at h
    · cases h
    · split at h
      · split at h
        · simp at h
        · split at h
          · simp at h
          · simp only [PanicOr.ok.injEq, Except.error.injEq] at h
            exact Or.inr h.symm
          · cases h
      all_goals simp at h
  · simp only [PanicOr.ok.injEq, Except.error.injEq] at h
    exact Or.inl h.symm
  · cases h

/-! ## Claim theorems -/

/-- Claim C4, counterexample: with the tenant context unresolvable, the
facade's startup still succeeds (it binds 127.0.0.1:9999 and serves),
and a concrete POST /encrypt request is answered with the per-request
`MissingCageContext` error rather than the process failing at boot. -/
theorem crypto_api_context_cx :
    CryptoApi.listen_startup none = .ok (127, 0, 0, 1, 9999) ∧
    CryptoApi.encrypt none test_e3_stub test_req = (.error .missingCageContext, []) ∧
    CryptoApi.decrypt none test_e3_stub test_req = (.error .missingCageContext, []) :=
  ⟨rfl, rfl, rfl⟩

/-- Claim C4 (amended): if the tenant context is unresolvable, the
facade nonetheless starts and serves (its startup never consults the
context); each request to /encrypt or /decrypt then fails with the
per-request `MissingCageContext` error, without contacting E3. -/
theorem crypto_api_context_per_request :
    ∀ (e3 : String → E3Payload → Except E3Err Json) (req : HttpRequest),
      CryptoApi.listen_startup none = .ok (127, 0, 0, 1, 9999) ∧
      CryptoApi.encrypt none e3 req = (.error .missingCageContext, []) ∧
      CryptoApi.decrypt none e3 req = (.error .missingCageContext, []) :=
  fun _ _ => ⟨rfl, rfl, rfl⟩

/-- Claim C5, counterexample: a 404 response from E3 makes
`authenticate` return the `FailedRequest` error, not the boolean
`false`: `send` already rejects every non-2xx status. -/
theorem authenticate_non2xx_cx :
    E3Client.authenticate (some 404) = .error (.failedRequest 404) ∧
    E3Client.authenticate (some 404) ≠ .ok false := by
  refine ⟨rfl, ?_⟩
  intro h
  have h2 : (Except.error (E3Err.failedRequest 404) : Except E3Err Bool) =
      .ok false := h
  cases h2

/-- Claim C5 (amended): a 2xx response makes `authenticate` return
`Ok(true)`; any non-2xx response makes it return the
`FailedRequest(status)` error (raised inside `send`); a transport
failure surfaces as an error; `Ok(false)` is never returned. -/
theorem authenticate_status_mapping :
    ∀ status : Nat,
      (is_success status = true → E3Client.authenticate (some status) = .ok true) ∧
      (is_success status = false →
        E3Client.authenticate (some status) = .error (.failedRequest status)) ∧
      E3Client.authenticate none = .error .ioError ∧
      ∀ exchange, E3Client.authenticate exchange ≠ .ok false := by
  intro status
  refine ⟨?_, ?_, rfl, ?_⟩
  · intro h
    simp [E3Client.authenticate, E3Client.send, h]
  · intro h
    simp [E3Client.authenticate, E3Client.send, h]
  · intro exchange h
    cases exchange with
    | none =>
      have h2 : (Except.error E3Err.ioError : Except E3Err Bool) = .ok false := h
      cases h2
    | some st =>
      by_cases hs : is_success st <;>
        simp [E3Client.authenticate, E3Client.send, hs] at h

/-- Claim C5 witness: the amended mapping evaluated at statuses 204
and 404. -/
theorem authenticate_status_mapping_witness :
    E3Client.authenticate (some 204) = .ok true ∧
    E3Client.authenticate (some 404) = .error (.failedRequest 404) :=
  ⟨(authenticate_status_mapping 204).1 (by decide),
   (authenticate_status_mapping 404).2.1 (by decide)⟩

/-- Claim C6: a POST /encrypt or POST /decrypt request without an
api-key header is answered with the `MissingApiKey` error and the E3
client is never invoked (the call list is empty); the context must be
resolvable, else the earlier `MissingCageContext` check fires first. -/
theorem missing_api_key_no_e3_contact :
    ∀ (ctx : CageContext) (e3enc e3dec : String → E3Payload → Except E3Err Json)
      (req : HttpRequest),
      req.method = method_post →
      (req.path = encrypt_path ∨ req.path = decrypt_path) →
      req.apiKey = none →
      CryptoApi.api (some ctx) e3enc e3dec req = (.error .missingApiKey, []) := by
  intro ctx e3enc e3dec req hm hp hk
  rcases hp with hp | hp <;>
    simp [CryptoApi.api, hm, hp, CryptoApi.encrypt, CryptoApi.decrypt,
      CryptoApi.build_request, CageContext.new, hk, encrypt_path, decrypt_path]

/-- Claim C6 witness: the concrete keyless POST /encrypt request. -/
theorem missing_api_key_no_e3_contact_witness :
    CryptoApi.api (some test_ctx) test_e3_stub test_e3_stub test_req_nokey =
      (.error .missingApiKey, []) :=
  missing_api_key_no_e3_contact test_ctx test_e3_stub test_e3_stub
    test_req_nokey rfl (Or.inl rfl) rfl

/-- Claim C7: unset EGRESS_PORTS defaults to [443]; "443,8443" yields
[443, 8443]; the empty value panics (its single empty item fails to
parse); and any item that fails u16 parsing (non-numeric or out of
range) makes the whole startup parse panic. -/
theorem egress_ports_parsing :
    get_egress_ports none = some [443] ∧
    get_egress_ports (some ports_443_8443) = some [443, 8443] ∧
    get_egress_ports (some ("")) = none ∧
    ∀ s item, item ∈ split_on_comma s → parse_u16 item = none →
      get_egress_ports (some s) = none := by
  refine ⟨by decide, by decide, by decide, ?_⟩
  intro s item hmem hfail
  unfold get_egress_ports
  exact collect_ports_none (List.mem_map.mpr ⟨item, hmem, hfail⟩)

/-- Claim C7 witness: the out-of-range item 65536 makes the parse of
"443,65536" panic. -/
theorem egress_ports_parsing_witness :
    get_egress_ports (some ports_443_65536) = none :=
  egress_ports_parsing.2.2.2 ports_443_65536 item_65536 (by decide) (by decide)

/-- Claim C8: whenever `build_request` succeeds, serializing the built
payload yields exactly the object with fields data (the request body),
team_uuid and app_uuid taken from the tenant context, whatever the body
value; and the data-less payload (`From<&CageContext>`) serializes with
data null. -/
theorem e3_request_body_shape :
    (∀ (ctx : CageContext) (req : HttpRequest) (api_key : String)
        (payload : E3Payload),
        CryptoApi.build_request (some ctx) req = .ok (api_key, payload) →
        ∃ body, req.bodyJson = some body ∧
          payload.try_into_body =
            Json.obj [(data_key, body),
                      (team_uuid_key, Json.str ctx.team_uuid),
                      (app_uuid_key, Json.str ctx.app_uuid)]) ∧
    ∀ ctx : CageContext,
      (E3Payload.from_context ctx).try_into_body =
        Json.obj [(data_key, Json.null),
                  (team_uuid_key, Json.str ctx.team_uuid),
                  (app_uuid_key, Json.str ctx.app_uuid)] := by
  constructor
  · intro ctx req api_key payload h
    obtain ⟨m, pa, key, bj⟩ := req
    cases key with
    | none => simp [CryptoApi.build_request, CageContext.new] at h
    | some k =>
      cases bj with
      | none => simp [CryptoApi.build_request, CageContext.new] at h
      | some body =>
        simp only [CryptoApi.build_request, CageContext.new,
          Except.ok.injEq, Prod.mk.injEq] at h
        obtain ⟨hk2, hp2⟩ := h
        subst hk2
        subst hp2
        exact ⟨body, rfl, rfl⟩
  · intro ctx
    rfl

/-- Claim C8 witness: the shape evaluated on a concrete request with a
numeric body and the concrete tenant context. -/
theorem e3_request_body_shape_witness :
    ∃ body, test_req.bodyJson = some body ∧
      (E3Payload.from_value (Json.num 5) test_ctx).try_into_body =
        Json.obj [(data_key, body),
                  (team_uuid_key, Json.str test_ctx.team_uuid),
                  (app_uuid_key, Json.str test_ctx.app_uuid)] :=
  e3_request_body_shape.1 test_ctx test_req data_key
    (E3Payload.from_value (Json.num 5) test_ctx) rfl

/-- Claim C9, counterexample: on a 3-byte buffer the streaming record
parse returns `Incomplete`, and the source's `.finish()` call panics on
`Incomplete`, so `get_hostname` DOES panic on this input buffer —
refuting "never panics on any input buffer". -/
theorem get_hostname_panics_cx :
    parse_tls_plaintext test_msg_parse truncated_data = .incomplete ∧
    get_hostname test_msg_parse test_ext_parse_nosni truncated_data = .panic :=
  ⟨rfl, rfl⟩

/-- Claim C9 (amended): whenever `parse_tls_plaintext` succeeds its
message list is non-empty (the payload is parsed with `many1`), so the
unguarded first-message access is in bounds and is never a panic
source; but `get_hostname` panics exactly when one of its two
`.finish()` calls meets an `Incomplete` parse result — a record buffer
shorter than the header or the announced record length, or an
`Incomplete` from the extensions parse. -/
theorem get_hostname_panic_semantics :
    ∀ (p : MsgParseFn) (pe : ExtParseFn) (data : List Nat),
      (∀ tp rest, parse_tls_plaintext p data = .done (tp, rest) →
        tp.msg ≠ []) ∧
      (get_hostname p pe data = .panic ↔
        (parse_tls_plaintext p data = .incomplete ∨
          ∃ tp rest ch raw,
            parse_tls_plaintext p data = .done (tp, rest) ∧
            tp.msg.get? 0 =
              some (TlsMessage.handshake
                (TlsMessageHandshake.clientHello ch)) ∧
            ch.ext = some raw ∧ pe raw = .incomplete)) := by
  intro p pe data
  refine ⟨fun tp rest h => parse_tls_plaintext_msg_ne_nil h, ⟨?_, ?_⟩⟩
  · intro h
    unfold get_hostname at h
    split at h
    · rename_i parsed rem heq
      split at h
      · rename_i hg0
        exact absurd
          (List.eq_nil_of_length_eq_zero
            (Nat.le_zero.mp (List.get?_eq_none.mp hg0)))
          (parse_tls_plaintext_msg_ne_nil heq)
      · rename_i first hm0
        split at h
        · rename_i ch
          split at h
          · cases h
          · rename_i raw hext
            split at h
            · cases h
            · cases h
            · rename_i hpe
              exact Or.inr ⟨parsed, rem, ch, raw, heq, hm0, hext, hpe⟩
        · cases h
    · cases h
    · rename_i heq
      exact Or.inl heq
  · intro h
    rcases h with h | ⟨tp, rest, ch, raw, hparse, hm0, hext, hpe⟩
    · simp [get_hostname, h]
    · simp only [get_hostname, hparse, hm0, hext, hpe]

/-- Claim C9 witness: the amended facts evaluated concretely — the
parsed record's non-empty message list, and the panic on the truncated
3-byte buffer via the characterization. -/
theorem get_hostname_panic_semantics_witness :
    test_plaintext.msg ≠ [] ∧
    get_hostname test_msg_parse test_ext_parse_nosni truncated_data = .panic :=
  ⟨(get_hostname_panic_semantics test_msg_parse test_ext_parse_nosni
      test_data).1 test_plaintext [] rfl,
   (get_hostname_panic_semantics test_msg_parse test_ext_parse_nosni
      truncated_data).2.mpr (Or.inl rfl)⟩

/-- Claim C1: every frame written to the host forwarder carries an ip
drawn from the DNS-cache answer set of the hostname that `get_hostname`
parsed from the connection; and on a cache miss the connection fails
with `MissingIP` and the forwarder trace stays empty. -/
theorem egress_ip_from_dns_cache (o : EgressOracles) (data : List Nat) :
    (∀ res tr f, handle_egress_connection o data = .ok (res, tr) →
        WriteEvent.frame f ∈ tr →
        ∃ hostname ips,
          get_hostname o.p o.pe data = .ok (.ok (some hostname)) ∧
          o.cache hostname = some ips ∧ f.ip ∈ ips) ∧
    (∀ hostname, get_hostname o.p o.pe data = .ok (.ok (some hostname)) →
        o.cache hostname = none →
        handle_egress_connection o data =
          .ok (.error (.missingIP (missing_ip_msg hostname)), [])) := by
  constructor
  · intro res tr f hrun hf
    unfold handle_egress_connection at hrun
    split at hrun
    · cases hrun
    · cases hrun
      simp at hf
    · cases hrun
      simp at hf
    · rename_i hostname hg
      split at hrun
      · rename_i remote_ip hsel
        split at hrun
        · split at hrun
          · split at hrun
            · simp only [PanicOr.ok.injEq, Prod.mk.injEq] at hrun
              obtain ⟨hres, htr⟩ := hrun
              subst htr
              rcases List.mem_cons.mp hf with hf1 | hf2
              · injection hf1 with hfe
                subst hfe
                rcases Option.bind_eq_some.mp hsel with ⟨ips, hcache, hchoose⟩
                exact ⟨hostname, ips, hg, hcache, choose_mem hchoose⟩
              · exact absurd hf2 frame_not_in_raws
            · simp only [PanicOr.ok.injEq, Prod.mk.injEq] at hrun
              obtain ⟨hres, htr⟩ := hrun
              subst htr
              rcases List.mem_cons.mp hf with hf1 | hf2
              · injection hf1 with hfe
                subst hfe
                rcases Option.bind_eq_some.mp hsel with ⟨ips, hcache, hchoose⟩
                exact ⟨hostname, ips, hg, hcache, choose_mem hchoose⟩
              · exact absurd hf2 frame_not_in_raws
          · cases hrun
            simp at hf
        · cases hrun
          simp at hf
      · cases hrun
        simp at hf
  · intro hostname hg hc
    simp [handle_egress_connection, hg, hc]

/-- Claim C1 witness: the successful concrete connection; its frame's
ip is a member of the cache's answer set for the parsed hostname. -/
theorem egress_ip_from_dns_cache_witness :
    ∃ hostname ips,
      get_hostname test_oracles_nosni.p test_oracles_nosni.pe test_data =
        .ok (.ok (some hostname)) ∧
      test_oracles_nosni.cache hostname = some ips ∧
      (ExternalRequest.mk test_ip test_data).ip ∈ ips :=
  (egress_ip_from_dns_cache test_oracles_nosni test_data).1
    (.ok ()) [WriteEvent.frame ⟨test_ip, test_data⟩] ⟨test_ip, test_data⟩
    rfl (List.mem_cons_self _ _)

/-- Claim C2: on every egress connection the trace of writes to the
host forwarder is either empty (the connection failed before the frame
write) or a single `ExternalRequest` frame followed exclusively by the
splicer's raw bytes: no byte precedes the frame and no second frame is
ever written. -/
theorem egress_single_frame_first (o : EgressOracles) (data : List Nat) :
    ∀ res tr, handle_egress_connection o data = .ok (res, tr) →
      tr = [] ∨ ∃ f raws, tr = WriteEvent.frame f :: raws ∧
        ∀ e ∈ raws, ∃ b, e = WriteEvent.raw b := by
  intro res tr hrun
  unfold handle_egress_connection at hrun
  split at hrun
  · cases hrun
  · simp only [PanicOr.ok.injEq, Prod.mk.injEq] at hrun
    obtain ⟨hres, htr⟩ := hrun
    subst htr
    exact Or.inl rfl
  · simp only [PanicOr.ok.injEq, Prod.mk.injEq] at hrun
    obtain ⟨hres, htr⟩ := hrun
    subst htr
    exact Or.inl rfl
  · split at hrun
    · rename_i remote_ip hsel
      split at hrun
      · split at hrun
        · split at hrun
          · simp only [PanicOr.ok.injEq, Prod.mk.injEq] at hrun
            obtain ⟨hres, htr⟩ := hrun
            subst htr
            refine Or.inr ⟨⟨remote_ip, data⟩, o.spliceChunks.map WriteEvent.raw,
              rfl, ?_⟩
            intro e he
            rcases List.mem_map.mp he with ⟨b, _, hb⟩
            exact ⟨b, hb.symm⟩
          · simp only [PanicOr.ok.injEq, Prod.mk.injEq] at hrun
            obtain ⟨hres, htr⟩ := hrun
            subst htr
            refine Or.inr ⟨⟨remote_ip, data⟩, o.spliceChunks.map WriteEvent.raw,
              rfl, ?_⟩
            intro e he
            rcases List.mem_map.mp he with ⟨b, _, hb⟩
            exact ⟨b, hb.symm⟩
        · simp only [PanicOr.ok.injEq, Prod.mk.injEq] at hrun
          obtain ⟨hres, htr⟩ := hrun
          subst htr
          exact Or.inl rfl
      · simp only [PanicOr.ok.injEq, Prod.mk.injEq] at hrun
        obtain ⟨hres, htr⟩ := hrun
        subst htr
        exact Or.inl rfl
    · simp only [PanicOr.ok.injEq, Prod.mk.injEq] at hrun
      obtain ⟨hres, htr⟩ := hrun
      subst htr
      exact Or.inl rfl

/-- Claim C2 witness: the trace shape evaluated on the successful
concrete connection. -/
theorem egress_single_frame_first_witness :
    ([WriteEvent.frame ⟨test_ip, test_data⟩] :
        List WriteEvent) = [] ∨
      ∃ f raws, ([WriteEvent.frame ⟨test_ip, test_data⟩] : List WriteEvent) =
          WriteEvent.frame f :: raws ∧
        ∀ e ∈ raws, ∃ b, e = WriteEvent.raw b :=
  egress_single_frame_first test_oracles_nosni test_data
    (.ok ()) [WriteEvent.frame ⟨test_ip, test_data⟩] rfl

/-- Claim C3, counterexample: a connection whose ClientHello carries an
extensions block but no SNI entry is NOT rejected with
`NoHostnameFound`: `get_hostname` returns the empty hostname, the
DNS cache is consulted for it, and (the cache holding an entry for the
empty string) the connection dials, writes its frame and splices. -/
theorem egress_no_hostname_cx :
    get_hostname test_oracles_nosni.p test_oracles_nosni.pe test_data =
      .ok (.ok (some (""))) ∧
    handle_egress_connection test_oracles_nosni test_data =
      .ok (.ok (), [WriteEvent.frame ⟨test_ip, test_data⟩]) ∧
    handle_egress_connection test_oracles_nosni test_data ≠
      .ok (.error .noHostnameFound, []) := by
  refine ⟨rfl, rfl, ?_⟩
  intro h
  have h2 : (PanicOr.ok ((Except.ok () : Except DNSError Unit),
      [WriteEvent.frame (⟨test_ip, test_data⟩ : ExternalRequest)]) :
      PanicOr (Except DNSError Unit × List WriteEvent)) =
      .ok (.error .noHostnameFound, []) := h
  simp at h2

/-- Claim C3 (amended): the broker rejects with `NoHostnameFound`
exactly when `get_hostname` yields no hostname, which happens when the
record's first message is not a ClientHello or the ClientHello has no
extensions block at all; when the extensions block parses, the hostname
is the SNI scan result — the empty string if no SNI entry (or only
empty ones) is present — and the broker proceeds to the DNS-cache
lookup with it rather than rejecting. -/
theorem egress_no_hostname_semantics (o : EgressOracles) (data : List Nat) :
    (handle_egress_connection o data = .ok (.error .noHostnameFound, []) ↔
       get_hostname o.p o.pe data = .ok (.ok none)) ∧
    (∀ tp rest m, parse_tls_plaintext o.p data = .done (tp, rest) →
       tp.msg.get? 0 = some m →
       (∀ ch, m ≠ TlsMessage.handshake (TlsMessageHandshake.clientHello ch)) →
       get_hostname o.p o.pe data = .ok (.ok none)) ∧
    (∀ tp rest ch, parse_tls_plaintext o.p data = .done (tp, rest) →
       tp.msg.get? 0 =
         some (TlsMessage.handshake (TlsMessageHandshake.clientHello ch)) →
       ch.ext = none →
       get_hostname o.p o.pe data = .ok (.ok none)) ∧
    (∀ tp rest ch raw exts rem2,
       parse_tls_plaintext o.p data = .done (tp, rest) →
       tp.msg.get? 0 =
         some (TlsMessage.handshake (TlsMessageHandshake.clientHello ch)) →
       ch.ext = some raw →
       o.pe raw = .done (exts, rem2) →
       get_hostname o.p o.pe data = .ok (.ok (some (sni_destination exts)))) := by
  refine ⟨⟨?_, ?_⟩, ?_, ?_, ?_⟩
  · intro hh
    unfold handle_egress_connection at hh
    split at hh
    · cases hh
    · rename_i e heq
      simp only [PanicOr.ok.injEq, Prod.mk.injEq] at hh
      obtain ⟨hres, -⟩ := hh
      injection hres with he
      subst he
      rcases get_hostname_error_is_parse heq with h1 | h1 <;> cases h1
    · rename_i heq
      exact heq
    · rename_i hostname heq
      exfalso
      split at hh
      · rename_i remote_ip hsel
        split at hh
        · split at hh
          · split at hh <;>
              (simp only [PanicOr.ok.injEq, Prod.mk.injEq] at hh;
               obtain ⟨hres, -⟩ := hh; cases hres)
          · simp only [PanicOr.ok.injEq, Prod.mk.injEq] at hh
            obtain ⟨hres, -⟩ := hh
            cases hres
        · simp only [PanicOr.ok.injEq, Prod.mk.injEq] at hh
          obtain ⟨hres, -⟩ := hh
          cases hres
      · simp only [PanicOr.ok.injEq, Prod.mk.injEq] at hh
        obtain ⟨hres, -⟩ := hh
        cases hres
  · intro hg
    simp [handle_egress_connection, hg]
  · intro tp rest m hparse hm0 hnot
    cases m with
    | handshake hs =>
      cases hs with
      | clientHello ch => exact absurd rfl (hnot ch)
      | otherHandshake => simp only [get_hostname, hparse, hm0]
    | otherMessage => simp only [get_hostname, hparse, hm0]
  · intro tp rest ch hparse hm0 hext
    simp only [get_hostname, hparse, hm0, hext]
  · intro tp rest ch raw exts rem2 hparse hm0 hext hpe
    simp only [get_hostname, hparse, hm0, hext, hpe]

/-- Claim C3 witness: the amended semantics evaluated on the concrete
SNI-less ClientHello: the hostname is the SNI scan of its extensions. -/
theorem egress_no_hostname_semantics_witness :
    get_hostname test_oracles_nosni.p test_oracles_nosni.pe test_data =
      .ok (.ok (some (sni_destination [TlsExtension.otherExtension]))) :=
  (egress_no_hostname_semantics test_oracles_nosni test_data).2.2.2
    test_plaintext [] ⟨some [0]⟩ [0] [TlsExtension.otherExtension] [0]
    rfl rfl rfl rfl

/-- Claim C10: a cached entry whose answer set is empty behaves exactly
like a cache miss: choosing from the empty list yields no IP, the
connection fails with `MissingIP`, nothing is written to the forwarder,
and the outcome coincides with the same connection run against a cache
with no entry for that hostname at all. -/
theorem empty_answer_set_missing_ip (o : EgressOracles) (data : List Nat) :
    ∀ hostname, get_hostname o.p o.pe data = .ok (.ok (some hostname)) →
      o.cache hostname = some [] →
      handle_egress_connection o data =
          .ok (.error (.missingIP (missing_ip_msg hostname)), []) ∧
        handle_egress_connection o data =
          handle_egress_connection
            ⟨o.p, o.pe, fun h => if h = hostname then none else o.cache h,
             o.rng, o.dialOk, o.writeOk, o.spliceChunks, o.spliceOk⟩ data := by
  intro hostname hg hc
  constructor
  · simp [handle_egress_connection, hg, hc, choose]
  · simp [handle_egress_connection, hg, hc, choose]

/-- Claim C10 witness: the empty-answer-set behaviour evaluated on the
concrete connection whose cache maps the parsed hostname to the empty
list. -/
theorem empty_answer_set_missing_ip_witness :
    handle_egress_connection test_oracles_empty_entry test_data =
        .ok (.error (.missingIP (missing_ip_msg (""))), []) ∧
      handle_egress_connection test_oracles_empty_entry test_data =
        handle_egress_connection
          ⟨test_oracles_empty_entry.p, test_oracles_empty_entry.pe,
           fun h => if h = ("") then none else test_oracles_empty_entry.cache h,
           test_oracles_empty_entry.rng, test_oracles_empty_entry.dialOk,
           test_oracles_empty_entry.writeOk,
           test_oracles_empty_entry.spliceChunks,
           test_oracles_empty_entry.spliceOk⟩ test_data :=
  empty_answer_set_missing_ip test_oracles_empty_entry test_data ("") rfl rfl

end Enclaves
